import Mathlib

/-!
Verification of `src/password_checker.py` (encrypter15/password_checker).

Shallow embedding: the password is a list of characters; the functions
`check_password_strength` and `load_config` below mirror the Python source
line by line.  Side effects of the evaluator (the `logging.error` call in its
`except` branch) are made explicit as a `logged` trace in the result, and the
`try`-block body is modelled as an `Except` computation so that the raised
`ValueError` and the surrounding handler are both visible.
-/

namespace PasswordChecker

/-- `re.search(r"[A-Z]", password)` matches exactly the code points 'A'..'Z'. -/
def isUpperAscii (c : Char) : Bool := 'A' ≤ c && c ≤ 'Z'

/-- `re.search(r"[a-z]", password)` matches exactly the code points 'a'..'z'. -/
def isLowerAscii (c : Char) : Bool := 'a' ≤ c && c ≤ 'z'

/-- `re.search(r"[0-9]", password)` matches exactly the code points '0'..'9'. -/
def isDigitAscii (c : Char) : Bool := '0' ≤ c && c ≤ '9'

/-- The fixed special-character class of `re.search(r"[!@#$%^&*]", password)`. -/
def specials : List Char := ['!', '@', '#', '$', '%', '^', '&', '*']

/-- Membership in the special-character class. -/
def isSpecialAscii (c : Char) : Bool := specials.contains c

/-- `re.search(r"[A-Z]", password)` is truthy iff some character matches. -/
def hasUpper (p : List Char) : Bool := p.any isUpperAscii

/-- `re.search(r"[a-z]", password)` is truthy iff some character matches. -/
def hasLower (p : List Char) : Bool := p.any isLowerAscii

/-- `re.search(r"[0-9]", password)` is truthy iff some character matches. -/
def hasDigit (p : List Char) : Bool := p.any isDigitAscii

/-- `re.search(r"[!@#$%^&*]", password)` is truthy iff some character matches. -/
def hasSpecial (p : List Char) : Bool := p.any isSpecialAscii

/-- Lines 47-54 of the source: the three-way length tier.  `min_length` is an
`Int` because Python places no sign restriction on the CLI integer.  Returns
the score contribution and the single feedback entry appended by the tier. -/
def lengthTier (len : Nat) (min_length : Int) : Nat × String :=
  if (len : Int) ≥ 12 then (2, "Good length (>=12)")
  else if (len : Int) ≥ min_length then (1, "Minimum length met")
  else (0, "Too short")

/-- Total score contributed by the four character-class checks
(lines 56-67 of the source), each adding 1 when its class is present. -/
def classScore (p : List Char) : Nat :=
  (if hasUpper p then 1 else 0) + (if hasLower p then 1 else 0) +
    (if hasDigit p then 1 else 0) + (if hasSpecial p then 1 else 0)

/-- Feedback entries appended by the four character-class checks, in the fixed
source order (lines 56-67). -/
def classFeedback (p : List Char) : List String :=
  (if hasUpper p then ["Has uppercase"] else []) ++
    (if hasLower p then ["Has lowercase"] else []) ++
    (if hasDigit p then ["Has numbers"] else []) ++
    (if hasSpecial p then ["Has special characters"] else [])

/-- The scoring body of `check_password_strength` for a string argument
(lines 47-69): the length tier followed by the four class checks, score
accumulated additively and feedback appended in evaluation order. -/
def checkStr (password : List Char) (min_length : Int) : Nat × List String :=
  ((lengthTier password.length min_length).1 + classScore password,
   (lengthTier password.length min_length).2 :: classFeedback password)

/-- The password argument as received by `check_password_strength`: either a
Python `str` (modelled as its characters) or any non-string value.  Every
non-string value takes the same path (the `isinstance` guard), so one
constructor covers them all. -/
inductive PwInput where
  | str (password : List Char)
  | notStr
deriving DecidableEq

/-- The `try` block of `check_password_strength` (lines 43-69): a non-string
argument raises `ValueError("Password must be a string")`; a string argument
runs the scoring body, which performs no raising operation. -/
def tryBody (input : PwInput) (min_length : Int) : Except String (Nat × List String) :=
  match input with
  | .notStr => .error "Password must be a string"
  | .str password => .ok (checkStr password min_length)

/-- Result of one call to `check_password_strength`: the returned pair plus
the trace of `logging` calls the function itself made. -/
structure CheckResult where
  score : Nat
  feedback : List String
  logged : List String
deriving DecidableEq

/-- `check_password_strength(password, min_length)` (lines 38-73): run the
`try` block; on an exception `e`, log `f"Error checking password: {e}"` and
return `(0, [f"Error: {e}"])`.  The normal path performs no logging call. -/
def check_password_strength (input : PwInput) (min_length : Int) : CheckResult :=
  match tryBody input min_length with
  | .ok (score, feedback) => ⟨score, feedback, []⟩
  | .error e => ⟨0, ["Error: " ++ e], ["Error checking password: " ++ e]⟩

/-- Outcome of `configparser` reading the configuration source in
`load_config` (lines 29-33): the file may be absent (`config.read` returns an
empty list, so the code raises `FileNotFoundError`), unparsable (`read`
raises), or parsed into named sections of key-value pairs. -/
inductive ConfigSource where
  | missing
  | parseError
  | parsed (sections : List (String × List (String × String)))
deriving DecidableEq

/-- The default Settings mapping returned on any failure (line 36). -/
def defaultSettings : List (String × String) :=
  [("log_file", "logs/password_checker.log")]

/-- The `try` block of `load_config` (lines 30-33): raise if the file was
missing or unparsable, look up the `Settings` section (a missing section
raises `KeyError`), and return it.  Exception messages are abstracted to
fixed strings; the code only feeds them into a log line. -/
def load_config_attempt (src : ConfigSource) :
    Except String (List (String × String)) :=
  match src with
  | .missing => .error "Config file not found"
  | .parseError => .error "Source contains parsing errors"
  | .parsed sections =>
      match sections.lookup "Settings" with
      | some s => .ok s
      | none => .error "Settings"

/-- `load_config(config_file)` (lines 27-36): run the `try` block; on any
exception `e`, log `f"Failed to load config: {e}"` and return the default
Settings mapping.  The result pairs the returned mapping with the trace of
`logging` calls made. -/
def load_config (src : ConfigSource) : List (String × String) × List String :=
  match load_config_attempt src with
  | .ok s => (s, [])
  | .error e => (defaultSettings, ["Failed to load config: " ++ e])

/-- C3: on the password "Ab1!efgh" with minimum length 8, the checker returns
score 5 with the five feedback entries in rule-evaluation order (and performs
no logging). -/
theorem C3_concrete_example :
    check_password_strength (.str ['A', 'b', '1', '!', 'e', 'f', 'g', 'h']) 8 =
      ⟨5, ["Minimum length met", "Has uppercase", "Has lowercase", "Has numbers",
           "Has special characters"], []⟩ := by
  decide

/-- C4: for every minimum length, a non-string password argument does not
escape as an unhandled exception: the function returns score 0 with exactly
one feedback entry describing the error. -/
theorem C4_nonstring_recovered (m : Int) :
    (check_password_strength .notStr m).score = 0 ∧
      (check_password_strength .notStr m).feedback =
        ["Error: Password must be a string"] :=
  ⟨rfl, rfl⟩

/-- C1 is false as stated: the password of twelve 'a' characters with
minimum length 20 has length strictly below the minimum, yet the feedback
does not include "Too short" and the length tier contributes 2, not 0
(the `len >= 12` branch is tested first). -/
theorem C1_counterexample :
    (((List.replicate 12 'a').length : Int) < 20 ∧
      "Too short" ∉
        (check_password_strength (.str (List.replicate 12 'a')) 20).feedback) ∧
      (check_password_strength (.str (List.replicate 12 'a')) 20).score ≠
        classScore (List.replicate 12 'a') := by
  decide

/-- C1 (amended): if the password's length is below the minimum AND below 12,
the length tier contributes 0 (the score equals the class score alone) and the
feedback includes "Too short"; in particular the empty password with minimum
length 8 yields score 0 and feedback exactly ["Too short"]. -/
theorem C1_short_password_amended :
    (∀ (p : List Char) (m : Int), (p.length : Int) < m → (p.length : Int) < 12 →
      (check_password_strength (.str p) m).score = classScore p ∧
        "Too short" ∈ (check_password_strength (.str p) m).feedback) ∧
      check_password_strength (.str []) 8 = ⟨0, ["Too short"], []⟩ := by
  constructor
  · intro p m h1 h2
    have ht : lengthTier p.length m = (0, "Too short") := by
      unfold lengthTier
      rw [if_neg (by omega), if_neg (by omega)]
    constructor
    · simp [check_password_strength, tryBody, checkStr, ht]
    · simp [check_password_strength, tryBody, checkStr, ht]
  · decide

/-- C1 witness: the amended theorem applied to the empty password at minimum
length 8. -/
theorem C1_short_password_witness :
    ((([] : List Char).length : Int) < 8 ∧ (([] : List Char).length : Int) < 12) ∧
      (check_password_strength (.str []) 8).score = classScore [] ∧
        "Too short" ∈ (check_password_strength (.str []) 8).feedback :=
  ⟨⟨by decide, by decide⟩,
    C1_short_password_amended.1 [] 8 (by decide) (by decide)⟩

/-- C6 is false as stated: on a non-string input the evaluator itself calls
`logging.error`, so its log trace is nonempty. -/
theorem C6_counterexample :
    (check_password_strength .notStr 8).logged ≠ [] := by
  decide

/-- C6 (amended): for every string password the evaluator has no side effect
beyond its return value — it performs no logging call (and it contains no
print on any path); only the non-string error path logs. -/
theorem C6_no_effects_amended (p : List Char) (m : Int) :
    (check_password_strength (.str p) m).logged = [] := rfl

/-- The length tier contributes at most 2 to the score. -/
lemma lengthTier_fst_le (len : Nat) (m : Int) : (lengthTier len m).1 ≤ 2 := by
  unfold lengthTier
  split_ifs <;> simp

/-- The four class checks contribute at most 4 to the score. -/
lemma classScore_le (p : List Char) : classScore p ≤ 4 := by
  unfold classScore
  split_ifs <;> simp

/-- The class checks append at most four feedback entries. -/
lemma classFeedback_length_le (p : List Char) : (classFeedback p).length ≤ 4 := by
  unfold classFeedback
  split_ifs <;> simp

/-- C2: for every input — string or not — and every minimum length, the score
lies in [0, 6] and the feedback list has between 1 and 5 entries. -/
theorem C2_score_feedback_bounds (input : PwInput) (m : Int) :
    (0 ≤ (check_password_strength input m).score ∧
        (check_password_strength input m).score ≤ 6) ∧
      1 ≤ (check_password_strength input m).feedback.length ∧
        (check_password_strength input m).feedback.length ≤ 5 := by
  cases input with
  | notStr =>
    exact ⟨⟨Nat.zero_le _, by simp [check_password_strength, tryBody]⟩,
      by simp [check_password_strength, tryBody],
      by simp [check_password_strength, tryBody]⟩
  | str p =>
    refine ⟨⟨Nat.zero_le _, ?_⟩, ?_, ?_⟩
    · have h1 := lengthTier_fst_le p.length m
      have h2 := classScore_le p
      simp only [check_password_strength, tryBody, checkStr]
      omega
    · simp [check_password_strength, tryBody, checkStr]
    · have h3 := classFeedback_length_le p
      simp only [check_password_strength, tryBody, checkStr, List.length_cons]
      omega

/-- C5: `load_config` is a total function — it returns a Settings mapping on
every path — and whenever the `try` block fails (missing file, parse error,
absent `Settings` section) the returned mapping is the default
`log_file = "logs/password_checker.log"`. -/
theorem C5_load_config_total_default (src : ConfigSource) :
    ((load_config_attempt src).isOk = false →
        (load_config src).1 = defaultSettings) ∧
      ∀ s, load_config_attempt src = .ok s → (load_config src).1 = s := by
  constructor
  · intro h
    unfold load_config
    cases ha : load_config_attempt src with
    | ok s => rw [ha] at h; simp [Except.isOk, Except.toBool] at h
    | error e => simp
  · intro s h
    unfold load_config
    rw [h]

/-- C5 witness: a missing configuration file fails the `try` block and yields
the default Settings mapping. -/
theorem C5_load_config_witness :
    (load_config_attempt .missing).isOk = false ∧
      (load_config .missing).1 = defaultSettings :=
  ⟨rfl, (C5_load_config_total_default .missing).1 rfl⟩

/-- C7: for every string password the feedback is exactly the length-tier
entry first, followed by the class entries filtered from the fixed order
["Has uppercase", "Has lowercase", "Has numbers", "Has special characters"],
each present exactly when its character class occurs in the password. -/
theorem C7_feedback_order (p : List Char) (m : Int) :
    (check_password_strength (.str p) m).feedback =
      (lengthTier p.length m).2 ::
        (["Has uppercase", "Has lowercase", "Has numbers",
            "Has special characters"].filter fun msg =>
          (msg == "Has uppercase" && hasUpper p) ||
            (msg == "Has lowercase" && hasLower p) ||
            (msg == "Has numbers" && hasDigit p) ||
            (msg == "Has special characters" && hasSpecial p)) := by
  simp only [check_password_strength, tryBody, checkStr]
  cases hU : hasUpper p <;> cases hL : hasLower p <;>
    cases hD : hasDigit p <;> cases hS : hasSpecial p <;>
      simp [classFeedback, List.filter, hU, hL, hD, hS]

/-- Permuting a list does not change whether some element satisfies a
predicate. -/
lemma any_of_perm {p q : List Char} (h : p.Perm q) (f : Char → Bool) :
    p.any f = q.any f := by
  have hiff : p.any f = true ↔ q.any f = true := by
    simp only [List.any_eq_true]
    constructor
    · rintro ⟨x, hx, hfx⟩
      exact ⟨x, h.mem_iff.mp hx, hfx⟩
    · rintro ⟨x, hx, hfx⟩
      exact ⟨x, h.mem_iff.mpr hx, hfx⟩
  cases hp : p.any f <;> cases hq : q.any f <;> simp_all

/-- C8: permuting the characters of the password leaves the score unchanged
(scoring is presence-based, not positional). -/
theorem C8_perm_invariant (p q : List Char) (m : Int) (h : p.Perm q) :
    (check_password_strength (.str p) m).score =
      (check_password_strength (.str q) m).score := by
  simp only [check_password_strength, tryBody, checkStr, classScore,
    hasUpper, hasLower, hasDigit, hasSpecial]
  simp only [h.length_eq, any_of_perm h isUpperAscii, any_of_perm h isLowerAscii,
    any_of_perm h isDigitAscii, any_of_perm h isSpecialAscii]

/-- C8 witness: swapping the two characters of "aB" leaves the score
unchanged. -/
theorem C8_perm_witness :
    List.Perm ['a', 'B'] ['B', 'a'] ∧
      (check_password_strength (.str ['a', 'B']) 8).score =
        (check_password_strength (.str ['B', 'a']) 8).score :=
  ⟨by decide, C8_perm_invariant ['a', 'B'] ['B', 'a'] 8 (by decide)⟩

/-- The length tier's score contribution is monotone in the length. -/
lemma lengthTier_fst_mono (m : Int) {a b : Nat} (h : a ≤ b) :
    (lengthTier a m).1 ≤ (lengthTier b m).1 := by
  unfold lengthTier
  split_ifs <;> simp <;> omega

/-- A class check satisfied on a prefix stays satisfied on the extension. -/
lemma indicator_append_mono (p s : List Char) (f : Char → Bool) :
    (if p.any f then 1 else 0) ≤ if (p ++ s).any f then (1 : Nat) else 0 := by
  by_cases hp : p.any f = true
  · simp [List.any_append, hp]
  · simp [hp]

/-- C9: appending characters to a password never decreases the score. -/
theorem C9_append_monotone (p s : List Char) (m : Int) :
    (check_password_strength (.str p) m).score ≤
      (check_password_strength (.str (p ++ s)) m).score := by
  simp only [check_password_strength, tryBody, checkStr, classScore,
    hasUpper, hasLower, hasDigit, hasSpecial]
  have ht : (lengthTier p.length m).1 ≤ (lengthTier (p ++ s).length m).1 :=
    lengthTier_fst_mono m (by simp)
  have h1 := indicator_append_mono p s isUpperAscii
  have h2 := indicator_append_mono p s isLowerAscii
  have h3 := indicator_append_mono p s isDigitAscii
  have h4 := indicator_append_mono p s isSpecialAscii
  omega

/-- C10: for a string password the error branch is unreachable — the `try`
block succeeds with the normal scoring result — and the error fallback (a
nonempty log trace and the "Error: ..." feedback) can only be taken for a
non-string input. -/
theorem C10_error_branch_unreachable (input : PwInput) (m : Int) :
    (∀ p, input = .str p → tryBody input m = .ok (checkStr p m)) ∧
      ((check_password_strength input m).logged ≠ [] → input = .notStr) := by
  cases input with
  | str p =>
    refine ⟨?_, ?_⟩
    · intro q hq
      cases hq
      rfl
    · intro h
      exact absurd rfl h
  | notStr =>
    exact ⟨(fun p hp => nomatch hp), fun _ => rfl⟩

/-- C10 witness: the `try` block succeeds on the one-character password "a",
and the nonempty log trace of the non-string call indeed forces the input to
be the non-string case. -/
theorem C10_error_branch_witness :
    (tryBody (.str ['a']) 8 = .ok (checkStr ['a'] 8)) ∧
      (check_password_strength .notStr 8).logged ≠ [] ∧
        PwInput.notStr = PwInput.notStr :=
  ⟨(C10_error_branch_unreachable (.str ['a']) 8).1 ['a'] rfl,
    by decide,
    (C10_error_branch_unreachable .notStr 8).2 (by decide)⟩

end PasswordChecker
